import Mathlib

/-!
Verification of the Banking-System repository's ledger engine against its
natural-language specification.

The repository has three source variants sharing one ledger design:
`BS.py` (console, the base variant), `c2.py` (GUI callbacks) and `c3.py`
(password-gated JSON records).  The embedding below models:

* the durable record store as a function from account ids to a file state
  (missing / parsed integer balance / existing-but-unparseable contents),
  mirroring `read_balance` / `write_balance_atomic`;
* the audit log as a list of entries, newest first, mirroring
  `log_transaction_atomic` (the file system and locks are abstracted away:
  claims here are about the sequential functional behaviour each operation
  performs while holding the relevant locks);
* write failures of `write_balance_atomic` (which returns False on any
  I/O exception) as explicit boolean oracles, one per write attempt, so
  the rollback paths of `transfer` are reachable in the model;
* operation outcomes as enumerations whose constructors correspond
  one-to-one to the distinct print / callback messages of the source.

The `c3.py` variant is modelled separately (records carry an optional
balance plus credential material, accessed with `dict.get`, and Python
method calls on `None` raise), because several claims hinge on exactly
those differences.
-/

/-- On-disk state of one account record in `BS.py` / `c2.py`:
the file is absent, or parses as an integer balance, or exists but its
contents fail `int(...)` (the `ValueError` branch of `read_balance`). -/
inductive FileState
  | missing
  | content (b : Int)
  | corrupt
deriving DecidableEq, Repr

/-- One line of the central transaction log, as written by
`log_transaction_atomic`: operation kind, account id, free-text details,
outcome.  The timestamp is omitted (it never influences control flow). -/
structure Entry where
  op : String
  user : String
  details : String
  status : String
deriving DecidableEq, Repr

/-- The persistent state the ledger engine manipulates: the accounts
directory (one record per id) and the central transaction log
(newest entry first). -/
structure BankState where
  store : String → FileState
  log : List Entry

/-- Outcome string used by `log_transaction_atomic` for successes. -/
def sSuccess : String := "Success"

/-- Outcome string used by `log_transaction_atomic` for failures. -/
def sFailed : String := "Failed"

/-- Operation-kind string for account creation log lines. -/
def opCreate : String := "Create Account"

/-- Operation-kind string for deposit log lines. -/
def opDeposit : String := "Deposit"

/-- Operation-kind string for withdrawal log lines. -/
def opWithdraw : String := "Withdraw"

/-- Operation-kind string for transfer log lines. -/
def opTransfer : String := "Transfer"

/-- Details field written by deposit / withdraw log lines. -/
def amountDetails (amount : Int) : String :=
  "Amount: " ++ toString amount

/-- Details field written by create-account log lines. -/
def initialBalanceDetails (b : Int) : String :=
  "Initial balance: " ++ toString b

/-- Details field of the failed log line of a same-account transfer in
`BS.py`. -/
def selfDetails (amount : Int) : String :=
  "Attempted to transfer to self: " ++ toString amount

/-- Details field of the sender-side transfer log line. -/
def toDetails (ta : String) (amount : Int) : String :=
  "To: " ++ ta ++ ", Amount: " ++ toString amount

/-- Details field of the receiver-side transfer log line. -/
def fromDetails (fa : String) (amount : Int) : String :=
  "From: " ++ fa ++ ", Amount: " ++ toString amount

/-- `read_balance` of `BS.py` / `c2.py`: `None` when the file is missing
(`os.path.exists` fails) or when its contents do not parse as an integer
(`ValueError`), otherwise the parsed balance. -/
def read_balance (s : BankState) (id : String) : Option Int :=
  match s.store id with
  | FileState.missing => none
  | FileState.content b => some b
  | FileState.corrupt => none

/-- `write_balance_atomic`: writes the new balance via a temp file and an
atomic rename, returning True, or fails wholesale (any exception) leaving
the record as it was and returning False.  The boolean oracle `ok` stands
for whether this write attempt's I/O succeeds. -/
def write_balance_atomic (ok : Bool) (s : BankState) (id : String) (b : Int) :
    BankState × Bool :=
  if ok then
    ({ s with store := fun k => if k = id then FileState.content b else s.store k },
     true)
  else
    (s, false)

/-- `log_transaction_atomic`: appends one line to the central transaction
log (modelled newest-first). -/
def log_transaction_atomic (s : BankState) (op user details status : String) :
    BankState :=
  { s with log := { op := op, user := user, details := details, status := status } :: s.log }

/-- Outcomes of `create_account`, one per distinct source message. -/
inductive CreateRes
  | alreadyExists
  | created
  | ioFailed
deriving DecidableEq, Repr

/-- Outcomes of `deposit`, one per distinct source message. -/
inductive DepositRes
  | noAccount
  | deposited
  | ioFailed
deriving DecidableEq, Repr, BEq

/-- Outcomes of `withdraw`, one per distinct source message. -/
inductive WithdrawRes
  | noAccount
  | insufficientFunds
  | withdrew
  | ioFailed
deriving DecidableEq, Repr, BEq

/-- Outcomes of `transfer`, one per distinct source message
(`rolledBack` is the "failed and has been rolled back" message, printed
whether or not the compensating writes themselves succeeded). -/
inductive TransferRes
  | sameAccount
  | noAccount
  | insufficientFunds
  | transferred
  | rolledBack
deriving DecidableEq, Repr

/-- `create_account` of `BS.py`: if the record file already exists
(whether or not it parses), report an existing account and change
nothing; otherwise write the initial balance and log the outcome. -/
def create_account (wok : Bool) (s : BankState) (id : String) (b0 : Int) :
    BankState × CreateRes :=
  match s.store id with
  | FileState.missing =>
    let p := write_balance_atomic wok s id b0
    if p.2 then
      (log_transaction_atomic p.1 opCreate id (initialBalanceDetails b0) sSuccess,
       CreateRes.created)
    else
      (log_transaction_atomic p.1 opCreate id (initialBalanceDetails b0) sFailed,
       CreateRes.ioFailed)
  | _ => (s, CreateRes.alreadyExists)

/-- `deposit` of `BS.py`: read the balance (missing or unparseable record
fails), add the amount — no sign check of any kind — and write it back,
logging the outcome.  Every path logs exactly one line. -/
def deposit (wok : Bool) (s : BankState) (id : String) (amount : Int) :
    BankState × DepositRes :=
  match read_balance s id with
  | none =>
    (log_transaction_atomic s opDeposit id (amountDetails amount) sFailed,
     DepositRes.noAccount)
  | some b =>
    let p := write_balance_atomic wok s id (b + amount)
    if p.2 then
      (log_transaction_atomic p.1 opDeposit id (amountDetails amount) sSuccess,
       DepositRes.deposited)
    else
      (log_transaction_atomic p.1 opDeposit id (amountDetails amount) sFailed,
       DepositRes.ioFailed)

/-- `withdraw` of `BS.py`: read the balance, fail on a missing account or
on insufficient funds (checked before any write), otherwise write the
decreased balance.  Every path logs exactly one line. -/
def withdraw (wok : Bool) (s : BankState) (id : String) (amount : Int) :
    BankState × WithdrawRes :=
  match read_balance s id with
  | none =>
    (log_transaction_atomic s opWithdraw id (amountDetails amount) sFailed,
     WithdrawRes.noAccount)
  | some b =>
    if b < amount then
      (log_transaction_atomic s opWithdraw id (amountDetails amount) sFailed,
       WithdrawRes.insufficientFunds)
    else
      let p := write_balance_atomic wok s id (b - amount)
      if p.2 then
        (log_transaction_atomic p.1 opWithdraw id (amountDetails amount) sSuccess,
         WithdrawRes.withdrew)
      else
        (log_transaction_atomic p.1 opWithdraw id (amountDetails amount) sFailed,
         WithdrawRes.ioFailed)

/-- Body of `transfer` in `BS.py` once both account locks are held: read
both balances, fail if either record is unreadable or funds are
insufficient (each failure logging one failed line attributed to the
sender), otherwise write both new balances; if either write fails,
attempt a best-effort compensating write per successfully written side
(oracles `rf`, `rt`) and log two failed lines — the reported outcome does
not depend on whether the compensating writes succeeded. -/
def transfer_locked (wf wt rf rt : Bool) (s : BankState) (fa ta : String)
    (amount : Int) : BankState × TransferRes :=
  match read_balance s fa, read_balance s ta with
  | some bf, some bt =>
    if bf < amount then
      (log_transaction_atomic s opTransfer fa (toDetails ta amount) sFailed,
       TransferRes.insufficientFunds)
    else
      let p1 := write_balance_atomic wf s fa (bf - amount)
      let p2 := write_balance_atomic wt p1.1 ta (bt + amount)
      if p1.2 && p2.2 then
        (log_transaction_atomic
          (log_transaction_atomic p2.1 opTransfer fa (toDetails ta amount) sSuccess)
          opTransfer ta (fromDetails fa amount) sSuccess,
         TransferRes.transferred)
      else
        let s3 := if p1.2 then (write_balance_atomic rf p2.1 fa bf).1 else p2.1
        let s4 := if p2.2 then (write_balance_atomic rt s3 ta bt).1 else s3
        (log_transaction_atomic
          (log_transaction_atomic s4 opTransfer fa (toDetails ta amount) sFailed)
          opTransfer ta (fromDetails fa amount) sFailed,
         TransferRes.rolledBack)
  | _, _ =>
    (log_transaction_atomic s opTransfer fa (toDetails ta amount) sFailed,
     TransferRes.noAccount)

/-- `transfer` of `BS.py`: the same-account case fails immediately and
logs one failed line attributed to the sender; otherwise the locked body
runs. -/
def transfer (wf wt rf rt : Bool) (s : BankState) (fa ta : String)
    (amount : Int) : BankState × TransferRes :=
  if fa = ta then
    (log_transaction_atomic s opTransfer fa (selfDetails amount) sFailed,
     TransferRes.sameAccount)
  else
    transfer_locked wf wt rf rt s fa ta amount

/-- `transfer` of `c2.py`: same write and rollback protocol as `BS.py`,
but the same-account, missing-account and insufficient-funds failures are
reported only through the GUI callback — no transaction-log line is
written for any of them; only the success and rolled-back outcomes log
their two lines. -/
def c2_transfer (wf wt rf rt : Bool) (s : BankState) (fa ta : String)
    (amount : Int) : BankState × TransferRes :=
  if fa = ta then
    (s, TransferRes.sameAccount)
  else
    match read_balance s fa, read_balance s ta with
    | some bf, some bt =>
      if bf < amount then
        (s, TransferRes.insufficientFunds)
      else
        let p1 := write_balance_atomic wf s fa (bf - amount)
        let p2 := write_balance_atomic wt p1.1 ta (bt + amount)
        if p1.2 && p2.2 then
          (log_transaction_atomic
            (log_transaction_atomic p2.1 opTransfer fa (toDetails ta amount) sSuccess)
            opTransfer ta (fromDetails fa amount) sSuccess,
           TransferRes.transferred)
        else
          let s3 := if p1.2 then (write_balance_atomic rf p2.1 fa bf).1 else p2.1
          let s4 := if p2.2 then (write_balance_atomic rt s3 ta bt).1 else s3
          (log_transaction_atomic
            (log_transaction_atomic s4 opTransfer fa (toDetails ta amount) sFailed)
            opTransfer ta (fromDetails fa amount) sFailed,
           TransferRes.rolledBack)
    | _, _ => (s, TransferRes.noAccount)

/-- `withdraw` of `c2.py`: identical to `BS.py` except that the
missing-account and insufficient-funds failures are reported only through
the GUI callback — no transaction-log line is written for them. -/
def c2_withdraw (wok : Bool) (s : BankState) (id : String) (amount : Int) :
    BankState × WithdrawRes :=
  match read_balance s id with
  | none => (s, WithdrawRes.noAccount)
  | some b =>
    if b < amount then
      (s, WithdrawRes.insufficientFunds)
    else
      let p := write_balance_atomic wok s id (b - amount)
      if p.2 then
        (log_transaction_atomic p.1 opWithdraw id (amountDetails amount) sSuccess,
         WithdrawRes.withdrew)
      else
        (log_transaction_atomic p.1 opWithdraw id (amountDetails amount) sFailed,
         WithdrawRes.ioFailed)

/-- Account record of `c3.py`: a JSON object with a balance and credential
material.  `balance` is `Option Int` because `dict.get` on a record whose
JSON lacks the key yields `None`. -/
structure Rec3 where
  balance : Option Int
  salt : String
  pwdHash : String
deriving DecidableEq, Repr

/-- On-disk state of one account record in `c3.py`: absent, a parsed JSON
record, or existing contents that fail `json.load`
(the `JSONDecodeError` branch of `read_account_data`). -/
inductive File3
  | missing
  | record (r : Rec3)
  | corrupt
deriving DecidableEq, Repr

/-- Persistent state of the `c3.py` variant. -/
structure Bank3 where
  store : String → File3
  log : List Entry

/-- `read_account_data` of `c3.py`: `None` on a missing file or on
contents that fail to parse as JSON, otherwise the record. -/
def read_account_data (s : Bank3) (id : String) : Option Rec3 :=
  match s.store id with
  | File3.missing => none
  | File3.record r => some r
  | File3.corrupt => none

/-- `write_account_data_atomic` of `c3.py`: temp-file-then-rename write of
the whole record, with the boolean oracle `ok` standing for whether this
attempt's I/O succeeds. -/
def write_account_data_atomic (ok : Bool) (s : Bank3) (id : String) (r : Rec3) :
    Bank3 × Bool :=
  if ok then
    ({ s with store := fun k => if k = id then File3.record r else s.store k },
     true)
  else
    (s, false)

/-- `log_transaction_atomic` of `c3.py` (same code as the base variant),
acting on a `c3` state. -/
def log3 (s : Bank3) (op user details status : String) : Bank3 :=
  { s with log := { op := op, user := user, details := details, status := status } :: s.log }

/-- `verify_password` of `c3.py`, parameterised by the hash function
(`hashlib.sha256` over salt-prefixed bytes in the source, kept abstract
here): recompute the hash of the attempt with the stored salt and compare
with the stored hash. -/
def verify_password (hashFn : String → String → String)
    (storedSalt storedHash attempt : String) : Bool :=
  hashFn storedSalt attempt == storedHash

/-- Outcomes of `c3.py`'s `transfer`.  `attrError` is the unhandled
`AttributeError` raised by `read_account_data(...).get("balance")` when
`read_account_data` returned `None`: the thread dies with no callback and
no log line.  `typeErr` is the analogous unhandled `TypeError` from
comparing `None < amount`. -/
inductive TransferRes3
  | sameAccount
  | fromMissing
  | authFailed
  | noAccount
  | insufficientFunds
  | transferred
  | rolledBack
  | attrError
deriving DecidableEq, Repr

/-- Outcomes of `c3.py`'s `withdraw`. -/
inductive WithdrawRes3
  | noAccount
  | authFailed
  | typeErr
  | insufficientFunds
  | withdrew
  | ioFailed
deriving DecidableEq, Repr

/-- `transfer` of `c3.py`: same-account check (callback only, no log);
authenticate the sender from a pre-lock read; then, with both locks held,
evaluate `read_account_data(from).get("balance")` and
`read_account_data(to).get("balance")` — if either read returned `None`
(missing or unparseable file) the `.get` call raises an unhandled
`AttributeError` and the thread dies with the state untouched; the
`is None` test that follows only catches records whose JSON lacks the
balance key.  Otherwise check funds, write both updated records, and on a
partial write failure attempt compensating writes that re-add / re-subtract
the amount, logging two failed lines with the ordinary rolled-back
outcome. -/
def c3_transfer (hashFn : String → String → String) (wf wt rf rt : Bool)
    (s : Bank3) (fa ta : String) (amount : Int) (password : String) :
    Bank3 × TransferRes3 :=
  if fa = ta then
    (s, TransferRes3.sameAccount)
  else
    match read_account_data s fa with
    | none => (s, TransferRes3.fromMissing)
    | some ad =>
      if verify_password hashFn ad.salt ad.pwdHash password = false then
        (s, TransferRes3.authFailed)
      else
        match read_account_data s fa, read_account_data s ta with
        | some adf, some adt =>
          (match adf.balance, adt.balance with
           | some bf, some bt =>
             if bf < amount then
               (s, TransferRes3.insufficientFunds)
             else
               let adf2 := { adf with balance := some (bf - amount) }
               let adt2 := { adt with balance := some (bt + amount) }
               let p1 := write_account_data_atomic wf s fa adf2
               let p2 := write_account_data_atomic wt p1.1 ta adt2
               if p1.2 && p2.2 then
                 (log3 (log3 p2.1 opTransfer fa (toDetails ta amount) sSuccess)
                    opTransfer ta (fromDetails fa amount) sSuccess,
                  TransferRes3.transferred)
               else
                 let s3 :=
                   if p1.2 then
                     (write_account_data_atomic rf p2.1 fa
                       { adf2 with balance := some (bf - amount + amount) }).1
                   else p2.1
                 let s4 :=
                   if p2.2 then
                     (write_account_data_atomic rt s3 ta
                       { adt2 with balance := some (bt + amount - amount) }).1
                   else s3
                 (log3 (log3 s4 opTransfer fa (toDetails ta amount) sFailed)
                    opTransfer ta (fromDetails fa amount) sFailed,
                  TransferRes3.rolledBack)
           | _, _ => (s, TransferRes3.noAccount))
        | _, _ => (s, TransferRes3.attrError)

/-- `withdraw` of `c3.py`: authenticate from a pre-lock read, then check
funds against the already-read record (missing balance key would raise a
`TypeError` on the comparison) and write the decreased balance; only the
write outcome is logged — the missing-account, authentication and
insufficient-funds failures produce no log line. -/
def c3_withdraw (hashFn : String → String → String) (wok : Bool) (s : Bank3)
    (id : String) (amount : Int) (password : String) : Bank3 × WithdrawRes3 :=
  match read_account_data s id with
  | none => (s, WithdrawRes3.noAccount)
  | some ad =>
    if verify_password hashFn ad.salt ad.pwdHash password = false then
      (s, WithdrawRes3.authFailed)
    else
      match ad.balance with
      | none => (s, WithdrawRes3.typeErr)
      | some b =>
        if b < amount then
          (s, WithdrawRes3.insufficientFunds)
        else
          let ad2 := { ad with balance := some (b - amount) }
          let p := write_account_data_atomic wok s id ad2
          if p.2 then
            (log3 p.1 opWithdraw id (amountDetails amount) sSuccess,
             WithdrawRes3.withdrew)
          else
            (log3 p.1 opWithdraw id (amountDetails amount) sFailed,
             WithdrawRes3.ioFailed)

/-- One ledger-engine operation of the base variant, with the write
oracles it consumes (`transfer` takes four: its two forward writes and
its two potential compensating writes). -/
inductive Op
  | create (id : String) (b0 : Int) (wok : Bool)
  | dep (id : String) (amount : Int) (wok : Bool)
  | wd (id : String) (amount : Int) (wok : Bool)
  | xfer (fa ta : String) (amount : Int) (wf wt rf rt : Bool)

/-- Apply one operation to the state, discarding the reported outcome. -/
def applyOp (s : BankState) : Op → BankState
  | Op.create id b0 wok => (create_account wok s id b0).1
  | Op.dep id amount wok => (deposit wok s id amount).1
  | Op.wd id amount wok => (withdraw wok s id amount).1
  | Op.xfer fa ta amount wf wt rf rt => (transfer wf wt rf rt s fa ta amount).1

/-- The caller-side input-validity discipline the specification assumes:
non-negative initial balances and strictly positive amounts. -/
def validOp : Op → Prop
  | Op.create _ b0 _ => 0 ≤ b0
  | Op.dep _ amount _ => 0 < amount
  | Op.wd _ amount _ => 0 < amount
  | Op.xfer _ _ amount _ _ _ _ => 0 < amount

/-- The ledger invariant: every persisted, readable balance is
non-negative. -/
def nonNegStore (s : BankState) : Prop :=
  ∀ id b, read_balance s id = some b → 0 ≤ b

/-- A single-account operation (deposit or withdraw) with its amount and
its write oracle, for reasoning about operation sequences on one
account. -/
inductive AOp
  | dep (amount : Int) (wok : Bool)
  | wd (amount : Int) (wok : Bool)

/-- Apply one single-account operation to account `a`. -/
def applyA (a : String) (s : BankState) : AOp → BankState
  | AOp.dep amount wok => (deposit wok s a amount).1
  | AOp.wd amount wok => (withdraw wok s a amount).1

/-- Run a sequence of single-account operations on account `a`. -/
def runA (a : String) (s : BankState) : List AOp → BankState
  | [] => s
  | op :: rest => runA a (applyA a s op) rest

/-- Whether one single-account operation, applied in state `s`, reports
success (the outcome the source logs as `Success` and passes to the
callback with `True`). -/
def succA (a : String) (s : BankState) : AOp → Bool
  | AOp.dep amount wok => decide ((deposit wok s a amount).2 = DepositRes.deposited)
  | AOp.wd amount wok => decide ((withdraw wok s a amount).2 = WithdrawRes.withdrew)

/-- Sum of the amounts of the deposits that succeed along a run. -/
def sumDep (a : String) (s : BankState) : List AOp → Int
  | [] => 0
  | op :: rest =>
    (match op with
     | AOp.dep amount _ => if succA a s op then amount else 0
     | AOp.wd _ _ => 0) + sumDep a (applyA a s op) rest

/-- Sum of the amounts of the withdrawals that succeed along a run. -/
def sumWd (a : String) (s : BankState) : List AOp → Int
  | [] => 0
  | op :: rest =>
    (match op with
     | AOp.dep _ _ => 0
     | AOp.wd amount _ => if succA a s op then amount else 0) + sumWd a (applyA a s op) rest

/-- Sample account id. -/
def accA : String := "A"

/-- Sample account id. -/
def accB : String := "B"

/-- Sample account id with no record anywhere below. -/
def accZ : String := "Z"

/-- Sample password used with the concrete credential states below. -/
def pw0 : String := "pw"

/-- A concrete stand-in for the hash function parameter (the source's
`hashlib.sha256` over salt-prefixed bytes) used only to build concrete
witness states: it concatenates salt and attempt. -/
def catHash (salt attempt : String) : String := salt ++ attempt

/-- Concrete base-variant state: accounts A and B, both with balance
1000, empty log (the spec's running example). -/
def st1 : BankState :=
  { store := fun k =>
      if k = accA then FileState.content 1000
      else if k = accB then FileState.content 1000
      else FileState.missing,
    log := [] }

/-- Concrete base-variant state with no accounts at all. -/
def stEmpty : BankState := { store := fun _ => FileState.missing, log := [] }

/-- Concrete base-variant state whose A record exists but is
unparseable. -/
def stC : BankState :=
  { store := fun k => if k = accA then FileState.corrupt else FileState.missing,
    log := [] }

/-- Concrete base-variant state with one account A of balance 10. -/
def stW : BankState :=
  { store := fun k => if k = accA then FileState.content 10 else FileState.missing,
    log := [] }

/-- Concrete single-account operation sequence: a successful deposit of
5, a successful withdrawal of 8, a withdrawal of 5000 that fails on
funds, a deposit of 3 whose write fails, a successful withdrawal of 4. -/
def opsW : List AOp :=
  [AOp.dep 5 true, AOp.wd 8 true, AOp.wd 5000 true, AOp.dep 3 false, AOp.wd 4 true]

/-- Concrete `c3` record for account A: balance 1000, salt and a hash
matching password `pw0` under `catHash`. -/
def rec3A : Rec3 := { balance := some 1000, salt := "s1", pwdHash := "s1pw" }

/-- Concrete `c3` record for account B: balance 50. -/
def rec3B : Rec3 := { balance := some 50, salt := "s2", pwdHash := "s2pw" }

/-- Concrete `c3` state: accounts A and B with the records above, no
record for Z, empty log. -/
def st3 : Bank3 :=
  { store := fun k =>
      if k = accA then File3.record rec3A
      else if k = accB then File3.record rec3B
      else File3.missing,
    log := [] }

/-- The second component of a `write_balance_atomic` call is exactly its
I/O oracle. -/
lemma snd_write (ok : Bool) (s : BankState) (id : String) (b : Int) :
    (write_balance_atomic ok s id b).2 = ok := by
  cases ok <;> rfl

/-- A failed `write_balance_atomic` leaves the state untouched. -/
lemma fst_write_false (s : BankState) (id : String) (b : Int) :
    (write_balance_atomic false s id b).1 = s := rfl

/-- Reading any account is unaffected by appending a log line. -/
lemma read_log (s : BankState) (op user details status id : String) :
    read_balance (log_transaction_atomic s op user details status) id =
      read_balance s id := rfl

/-- Reading the account just written (successfully) yields the written
balance. -/
lemma read_write_self (s : BankState) (id : String) (b : Int) :
    read_balance (write_balance_atomic true s id b).1 id = some b := by
  simp [read_balance, write_balance_atomic]

/-- Reading a different account is unaffected by a write. -/
lemma read_write_other (ok : Bool) (s : BankState) (id k : String) (b : Int)
    (h : k ≠ id) :
    read_balance (write_balance_atomic ok s id b).1 k = read_balance s k := by
  cases ok <;> simp [read_balance, write_balance_atomic, h]

/-- Writing a non-negative balance preserves the non-negativity
invariant. -/
lemma nonNeg_write (ok : Bool) (s : BankState) (id : String) (b : Int)
    (hs : nonNegStore s) (hb : 0 ≤ b) :
    nonNegStore (write_balance_atomic ok s id b).1 := by
  cases ok with
  | false => exact hs
  | true =>
    intro k c hc
    by_cases hk : k = id
    · subst hk
      rw [read_write_self] at hc
      injection hc with hbc
      omega
    · rw [read_write_other true s id k b hk] at hc
      exact hs k c hc


/-- `create_account` with a non-negative initial balance preserves the
non-negativity invariant. -/
lemma nonNeg_create (wok : Bool) (s : BankState) (id : String) (b0 : Int)
    (hs : nonNegStore s) (hb0 : 0 ≤ b0) :
    nonNegStore (create_account wok s id b0).1 := by
  cases h : s.store id with
  | missing =>
    simp only [create_account, h]
    split
    · exact nonNeg_write wok s id b0 hs hb0
    · exact nonNeg_write wok s id b0 hs hb0
  | content b =>
    simp only [create_account, h]
    exact hs
  | corrupt =>
    simp only [create_account, h]
    exact hs

/-- `deposit` with a positive amount preserves the non-negativity
invariant. -/
lemma nonNeg_deposit (wok : Bool) (s : BankState) (id : String) (amount : Int)
    (hs : nonNegStore s) (hpos : 0 < amount) :
    nonNegStore (deposit wok s id amount).1 := by
  cases h : read_balance s id with
  | none =>
    simp only [deposit, h]
    exact hs
  | some b =>
    have hb : 0 ≤ b := hs id b h
    simp only [deposit, h]
    split
    · exact nonNeg_write wok s id (b + amount) hs (by omega)
    · exact nonNeg_write wok s id (b + amount) hs (by omega)

/-- `withdraw` preserves the non-negativity invariant (its own
insufficient-funds check guards the only write). -/
lemma nonNeg_withdraw (wok : Bool) (s : BankState) (id : String) (amount : Int)
    (hs : nonNegStore s) :
    nonNegStore (withdraw wok s id amount).1 := by
  cases h : read_balance s id with
  | none =>
    simp only [withdraw, h]
    exact hs
  | some b =>
    simp only [withdraw, h]
    split
    · exact hs
    · rename_i hge
      split
      · exact nonNeg_write wok s id (b - amount) hs (by omega)
      · exact nonNeg_write wok s id (b - amount) hs (by omega)

/-- `transfer` with a positive amount preserves the non-negativity
invariant on every write-outcome path, including the partial-failure
rollback paths. -/
lemma nonNeg_transfer (wf wt rf rt : Bool) (s : BankState) (fa ta : String)
    (amount : Int) (hs : nonNegStore s) (hpos : 0 < amount) :
    nonNegStore (transfer wf wt rf rt s fa ta amount).1 := by
  simp only [transfer]
  split
  · exact hs
  · cases hf : read_balance s fa with
    | none =>
      simp only [transfer_locked, hf]
      exact hs
    | some bf =>
      cases ht : read_balance s ta with
      | none =>
        simp only [transfer_locked, hf, ht]
        exact hs
      | some bt =>
        have hbf : 0 ≤ bf := hs fa bf hf
        have hbt : 0 ≤ bt := hs ta bt ht
        simp only [transfer_locked, hf, ht]
        split
        · exact hs
        · rename_i hge
          have h1 : nonNegStore (write_balance_atomic wf s fa (bf - amount)).1 :=
            nonNeg_write wf s fa (bf - amount) hs (by omega)
          have h2 : nonNegStore
              (write_balance_atomic wt (write_balance_atomic wf s fa (bf - amount)).1
                ta (bt + amount)).1 :=
            nonNeg_write wt _ ta (bt + amount) h1 (by omega)
          split
          · exact h2
          · split <;> split <;>
              first
                | exact nonNeg_write rt _ ta bt (nonNeg_write rf _ fa bf h2 hbf) hbt
                | exact nonNeg_write rf _ fa bf h2 hbf
                | exact nonNeg_write rt _ ta bt h2 hbt
                | exact h2

/-- One deposit or withdrawal changes the readable balance of its account
by exactly its amount when it reports success, and not at all
otherwise. -/
lemma applyA_read (a : String) (s : BankState) (b : Int) (op : AOp)
    (h : read_balance s a = some b) :
    read_balance (applyA a s op) a =
      some (b +
        (match op with
         | AOp.dep m _ => if succA a s op then m else 0
         | AOp.wd _ _ => 0) -
        (match op with
         | AOp.dep _ _ => 0
         | AOp.wd m _ => if succA a s op then m else 0)) := by
  cases op with
  | dep m w =>
    cases w with
    | true =>
      simp only [applyA, succA, deposit, h, snd_write, if_true, read_log,
        read_write_self]
      simp
    | false =>
      simp only [applyA, succA, deposit, h, snd_write, Bool.false_eq_true,
        if_false, fst_write_false, read_log, h]
      simp
  | wd m w =>
    by_cases hlt : b < m
    · simp only [applyA, succA, withdraw, h, hlt, if_true, read_log]
      simp [h]
    · cases w with
      | true =>
        simp only [applyA, succA, withdraw, h, hlt, if_false, snd_write,
          if_true, read_log, read_write_self]
        simp
      | false =>
        simp only [applyA, succA, withdraw, h, hlt, if_false, snd_write,
          Bool.false_eq_true, fst_write_false, read_log]
        simp [h]

/-- Running a sequence of deposits and withdrawals on one account leaves
its readable balance at the initial balance plus the successful deposits
minus the successful withdrawals. -/
lemma runA_read (a : String) (ops : List AOp) :
    ∀ (s : BankState) (b : Int), read_balance s a = some b →
      read_balance (runA a s ops) a = some (b + sumDep a s ops - sumWd a s ops) := by
  induction ops with
  | nil =>
    intro s b h
    simpa [runA, sumDep, sumWd] using h
  | cons op rest ih =>
    intro s b h
    have h1 := applyA_read a s b op h
    have h2 := ih (applyA a s op) _ h1
    simp only [runA, sumDep, sumWd, h2]
    congr 1
    cases op <;> ring

/-- A withdrawal that reports success was executed in a state whose
readable balance was at least its amount. -/
lemma succ_wd_implies_funds (a : String) (s : BankState) (m : Int) (w : Bool)
    (h : succA a s (AOp.wd m w) = true) :
    ∃ b, read_balance s a = some b ∧ m ≤ b := by
  cases hr : read_balance s a with
  | none =>
    simp [succA, withdraw, hr] at h
  | some b =>
    refine ⟨b, rfl, ?_⟩
    by_cases hlt : b < m
    · simp [succA, withdraw, hr, hlt] at h
    · omega

/-- C1: for every successful transfer between two distinct readable
accounts, the sender's persisted balance decreases by exactly the amount,
the receiver's increases by exactly the amount, and their sum is
unchanged — proved for the base variant's `transfer` and for the
credential-gated `c3` variant's `transfer`. -/
theorem claim1_transfer_moves_amount :
    (∀ (rf rt : Bool) (s : BankState) (fa ta : String) (bf bt amount : Int),
      fa ≠ ta → read_balance s fa = some bf → read_balance s ta = some bt →
      ¬ bf < amount →
      (transfer true true rf rt s fa ta amount).2 = TransferRes.transferred ∧
      read_balance (transfer true true rf rt s fa ta amount).1 fa = some (bf - amount) ∧
      read_balance (transfer true true rf rt s fa ta amount).1 ta = some (bt + amount) ∧
      bf - amount + (bt + amount) = bf + bt) ∧
    (∀ (hashFn : String → String → String) (rf rt : Bool) (s : Bank3)
      (fa ta : String) (adf adt : Rec3) (bf bt amount : Int) (pw : String),
      fa ≠ ta → read_account_data s fa = some adf →
      verify_password hashFn adf.salt adf.pwdHash pw = true →
      read_account_data s ta = some adt →
      adf.balance = some bf → adt.balance = some bt → ¬ bf < amount →
      (c3_transfer hashFn true true rf rt s fa ta amount pw).2 =
        TransferRes3.transferred ∧
      read_account_data (c3_transfer hashFn true true rf rt s fa ta amount pw).1 fa =
        some { adf with balance := some (bf - amount) } ∧
      read_account_data (c3_transfer hashFn true true rf rt s fa ta amount pw).1 ta =
        some { adt with balance := some (bt + amount) } ∧
      bf - amount + (bt + amount) = bf + bt) := by
  constructor
  · intro rf rt s fa ta bf bt amount hne hf ht hge
    refine ⟨?_, ?_, ?_, by ring⟩
    · simp only [transfer, hne, if_false, transfer_locked, hf, ht, hge,
        snd_write, Bool.and_self, if_true]
    · simp only [transfer, hne, if_false, transfer_locked, hf, ht, hge,
        snd_write, Bool.and_self, if_true, read_log]
      rw [read_write_other true _ ta fa (bt + amount) hne, read_write_self]
    · simp only [transfer, hne, if_false, transfer_locked, hf, ht, hge,
        snd_write, Bool.and_self, if_true, read_log]
      rw [read_write_self]
  · intro hashFn rf rt s fa ta adf adt bf bt amount pw hne hf hv ht hbf hbt hge
    refine ⟨?_, ?_, ?_, by ring⟩
    · simp [c3_transfer, hne, hf, hv, ht, hbf, hbt, hge,
        write_account_data_atomic, log3]
    · have hstore : (c3_transfer hashFn true true rf rt s fa ta amount pw).1.store =
          fun k =>
            if k = ta then File3.record { adt with balance := some (bt + amount) }
            else if k = fa then File3.record { adf with balance := some (bf - amount) }
            else s.store k := by
        simp [c3_transfer, hne, hf, hv, ht, hbf, hbt, hge,
          write_account_data_atomic, log3]
      simp [read_account_data, hstore, hne]
    · have hstore : (c3_transfer hashFn true true rf rt s fa ta amount pw).1.store =
          fun k =>
            if k = ta then File3.record { adt with balance := some (bt + amount) }
            else if k = fa then File3.record { adf with balance := some (bf - amount) }
            else s.store k := by
        simp [c3_transfer, hne, hf, hv, ht, hbf, hbt, hge,
          write_account_data_atomic, log3]
      simp [read_account_data, hstore]

/-- C1 witness: on two accounts of balance 1000 each, a transfer of 300
leaves 700 and 1300 (the spec's running example), and the `c3` variant
moves 30 out of a balance-1000 record. -/
theorem claim1_witness :
    read_balance (transfer true true true true st1 accA accB 300).1 accA = some 700 ∧
    read_balance (transfer true true true true st1 accA accB 300).1 accB = some 1300 ∧
    read_account_data (c3_transfer catHash true true true true st3 accA accB 30 pw0).1 accA =
      some { rec3A with balance := some 970 } := by
  refine ⟨?_, ?_, ?_⟩
  · have h := (claim1_transfer_moves_amount.1 true true st1 accA accB 1000 1000 300
      (by decide) (by decide) (by decide) (by decide)).2.1
    simpa using h
  · have h := (claim1_transfer_moves_amount.1 true true st1 accA accB 1000 1000 300
      (by decide) (by decide) (by decide) (by decide)).2.2.1
    simpa using h
  · have h := (claim1_transfer_moves_amount.2 catHash true true st3 accA accB rec3A rec3B
      1000 50 30 pw0 (by decide) (by decide) (by decide) (by decide) (by decide)
      (by decide) (by decide)).2.1
    simpa using h

/-- C2: starting from any state in which every readable balance is
non-negative, every engine operation — create with a non-negative initial
balance, deposit and withdraw with positive amounts, transfer with a
positive amount — preserves that invariant on every I/O-outcome path;
the writes that could drive a balance negative are rejected before any
mutation. -/
theorem claim2_ops_preserve_nonneg (s : BankState) (op : Op)
    (hs : nonNegStore s) (hv : validOp op) : nonNegStore (applyOp s op) := by
  cases op with
  | create id b0 wok => exact nonNeg_create wok s id b0 hs hv
  | dep id amount wok => exact nonNeg_deposit wok s id amount hs hv
  | wd id amount wok => exact nonNeg_withdraw wok s id amount hs
  | xfer fa ta amount wf wt rf rt => exact nonNeg_transfer wf wt rf rt s fa ta amount hs hv

/-- C2 witness: creating account A with balance 5 in the empty store
keeps every readable balance non-negative. -/
theorem claim2_witness : nonNegStore (applyOp stEmpty (Op.create accA 5 true)) :=
  claim2_ops_preserve_nonneg stEmpty (Op.create accA 5 true)
    (fun id b h => by simp [read_balance, stEmpty] at h)
    (by show (0 : Int) ≤ 5 ; norm_num)

/-- C3: for every initial readable balance and every sequence of deposit
and withdraw operations on one account, the final readable balance equals
the initial balance plus the amounts of the deposits that report success
minus the amounts of the withdrawals that report success, and every
withdrawal that reports success ran in a state whose balance was at least
its amount. -/
theorem claim3_sequence_accounting (a : String) (s : BankState) (b0 : Int)
    (ops : List AOp) (h : read_balance s a = some b0) :
    read_balance (runA a s ops) a = some (b0 + sumDep a s ops - sumWd a s ops) ∧
    (∀ l1 m w l2, ops = l1 ++ AOp.wd m w :: l2 →
      succA a (runA a s l1) (AOp.wd m w) = true →
      ∃ b, read_balance (runA a s l1) a = some b ∧ m ≤ b) :=
  ⟨runA_read a ops s b0 h,
   fun l1 m w _l2 _hsplit hsucc => succ_wd_implies_funds a (runA a s l1) m w hsucc⟩

/-- C3 witness: starting from balance 10, the sequence `opsW` (deposit 5
ok, withdraw 8 ok, withdraw 5000 blocked on funds, deposit 3 whose write
fails, withdraw 4 ok) ends with a readable balance of exactly 3. -/
theorem claim3_witness :
    read_balance (runA accA stW opsW) accA =
      some (10 + sumDep accA stW opsW - sumWd accA stW opsW) ∧
    10 + sumDep accA stW opsW - sumWd accA stW opsW = 3 :=
  ⟨(claim3_sequence_accounting accA stW 10 opsW (by decide)).1, by decide⟩

/-- C4 (amended): a withdrawal from a readable account whose balance is
below the requested amount fails with the insufficient-funds outcome and
leaves the persisted record untouched in every variant; the base variant
`BS.py` appends exactly one Withdraw/Failed audit line for it, while the
`c3.py` variant (like `c2.py`) reports the failure only through its
callback and appends no audit line. -/
theorem claim4_insufficient_funds :
    (∀ (wok : Bool) (s : BankState) (id : String) (amount b : Int),
      read_balance s id = some b → b < amount →
      (withdraw wok s id amount).2 = WithdrawRes.insufficientFunds ∧
      (withdraw wok s id amount).1.store = s.store ∧
      (withdraw wok s id amount).1.log =
        { op := opWithdraw, user := id, details := amountDetails amount,
          status := sFailed } :: s.log) ∧
    (∀ (hashFn : String → String → String) (wok : Bool) (s : Bank3) (id : String)
      (amount b : Int) (pw : String) (ad : Rec3),
      read_account_data s id = some ad →
      verify_password hashFn ad.salt ad.pwdHash pw = true →
      ad.balance = some b → b < amount →
      c3_withdraw hashFn wok s id amount pw = (s, WithdrawRes3.insufficientFunds)) := by
  constructor
  · intro wok s id amount b h hlt
    simp only [withdraw, h]
    rw [if_pos hlt]
    exact ⟨rfl, rfl, rfl⟩
  · intro hashFn wok s id amount b pw ad h hv hb hlt
    simp [c3_withdraw, h, hv, hb, hlt]

/-- C4 counterexample: in the cited `c3.py` variant, withdrawing 5000
from an authenticated account with balance 1000 fails on funds but
appends no audit entry at all, against the claimed exactly-one
Withdraw/Failed line. -/
theorem claim4_counterexample :
    (c3_withdraw catHash true st3 accA 5000 pw0).2 = WithdrawRes3.insufficientFunds ∧
    (c3_withdraw catHash true st3 accA 5000 pw0).1.log = st3.log :=
  ⟨by decide, by decide⟩

/-- C4 witness: in the base variant, withdrawing 5000 from balance 1000
fails on funds with the store untouched. -/
theorem claim4_witness :
    (withdraw true st1 accA 5000).2 = WithdrawRes.insufficientFunds ∧
    (withdraw true st1 accA 5000).1.store = st1.store :=
  ⟨(claim4_insufficient_funds.1 true st1 accA 5000 1000 (by decide) (by decide)).1,
   (claim4_insufficient_funds.1 true st1 accA 5000 1000 (by decide) (by decide)).2.1⟩

/-- C5 (failing evaluation): in `c3.py`, a transfer from an existing,
correctly authenticated account to an account with no record reaches
`read_account_data(to_account).get("balance")` with `None` and raises an
unhandled `AttributeError` — the thread dies with no typed
no-such-account outcome, no callback and no log line (the state is left
untouched only because the crash happens before any write). -/
theorem claim5_crash_eval :
    (c3_transfer catHash true true true true st3 accA accZ 3 pw0).2 =
      TransferRes3.attrError ∧
    (c3_transfer catHash true true true true st3 accA accZ 3 pw0).1 = st3 :=
  ⟨by decide, rfl⟩


/-- The second component of a `write_account_data_atomic` call is exactly
its I/O oracle. -/
lemma snd3_write (ok : Bool) (s : Bank3) (id : String) (r : Rec3) :
    (write_account_data_atomic ok s id r).2 = ok := by
  cases ok <;> rfl

/-- A failed `write_account_data_atomic` leaves the state untouched. -/
lemma fst3_write_false (s : Bank3) (id : String) (r : Rec3) :
    (write_account_data_atomic false s id r).1 = s := rfl

/-- Reading any `c3` account is unaffected by appending a log line. -/
lemma read3_log (s : Bank3) (op user details status id : String) :
    read_account_data (log3 s op user details status) id =
      read_account_data s id := rfl

/-- Reading the `c3` account just written (successfully) yields the
written record. -/
lemma read3_write_self (s : Bank3) (id : String) (r : Rec3) :
    read_account_data (write_account_data_atomic true s id r).1 id = some r := by
  simp [read_account_data, write_account_data_atomic]

/-- Reading a different `c3` account is unaffected by a write. -/
lemma read3_write_other (ok : Bool) (s : Bank3) (id k : String) (r : Rec3)
    (h : k ≠ id) :
    read_account_data (write_account_data_atomic ok s id r).1 k =
      read_account_data s k := by
  cases ok <;> simp [read_account_data, write_account_data_atomic, h]

/-- C6 (amended): for every transfer in which exactly one of the two
balance writes succeeds and the other fails — in either orientation, and
in both the base variant and the cited `c3.py` variant — the engine
attempts a compensating write restoring the successfully written side to
its pre-transfer value (that side is restored exactly when the
compensating write's own I/O succeeds, and is left at its updated value
when it also fails), the side whose forward write failed is unchanged —
and in every case the outcome reported to the caller is the one ordinary
rolled-back failure: no distinct partial-failure outcome exists in the
code. -/
theorem claim6_rollback :
    (∀ (rf rt : Bool) (s : BankState) (fa ta : String) (bf bt amount : Int),
      fa ≠ ta → read_balance s fa = some bf → read_balance s ta = some bt →
      ¬ bf < amount →
      (transfer true false rf rt s fa ta amount).2 = TransferRes.rolledBack ∧
      (rf = true → read_balance (transfer true false rf rt s fa ta amount).1 fa = some bf) ∧
      (rf = false → read_balance (transfer true false rf rt s fa ta amount).1 fa =
        some (bf - amount)) ∧
      read_balance (transfer true false rf rt s fa ta amount).1 ta = read_balance s ta) ∧
    (∀ (rf rt : Bool) (s : BankState) (fa ta : String) (bf bt amount : Int),
      fa ≠ ta → read_balance s fa = some bf → read_balance s ta = some bt →
      ¬ bf < amount →
      (transfer false true rf rt s fa ta amount).2 = TransferRes.rolledBack ∧
      (rt = true → read_balance (transfer false true rf rt s fa ta amount).1 ta = some bt) ∧
      (rt = false → read_balance (transfer false true rf rt s fa ta amount).1 ta =
        some (bt + amount)) ∧
      read_balance (transfer false true rf rt s fa ta amount).1 fa = read_balance s fa) ∧
    (∀ (hashFn : String → String → String) (rf rt : Bool) (s : Bank3)
      (fa ta : String) (adf adt : Rec3) (bf bt amount : Int) (pw : String),
      fa ≠ ta → read_account_data s fa = some adf →
      verify_password hashFn adf.salt adf.pwdHash pw = true →
      read_account_data s ta = some adt →
      adf.balance = some bf → adt.balance = some bt → ¬ bf < amount →
      (c3_transfer hashFn true false rf rt s fa ta amount pw).2 =
        TransferRes3.rolledBack ∧
      (rf = true → read_account_data (c3_transfer hashFn true false rf rt s fa ta amount pw).1 fa =
        some { adf with balance := some bf }) ∧
      (rf = false → read_account_data (c3_transfer hashFn true false rf rt s fa ta amount pw).1 fa =
        some { adf with balance := some (bf - amount) }) ∧
      read_account_data (c3_transfer hashFn true false rf rt s fa ta amount pw).1 ta =
        read_account_data s ta) ∧
    (∀ (hashFn : String → String → String) (rf rt : Bool) (s : Bank3)
      (fa ta : String) (adf adt : Rec3) (bf bt amount : Int) (pw : String),
      fa ≠ ta → read_account_data s fa = some adf →
      verify_password hashFn adf.salt adf.pwdHash pw = true →
      read_account_data s ta = some adt →
      adf.balance = some bf → adt.balance = some bt → ¬ bf < amount →
      (c3_transfer hashFn false true rf rt s fa ta amount pw).2 =
        TransferRes3.rolledBack ∧
      (rt = true → read_account_data (c3_transfer hashFn false true rf rt s fa ta amount pw).1 ta =
        some { adt with balance := some bt }) ∧
      (rt = false → read_account_data (c3_transfer hashFn false true rf rt s fa ta amount pw).1 ta =
        some { adt with balance := some (bt + amount) }) ∧
      read_account_data (c3_transfer hashFn false true rf rt s fa ta amount pw).1 fa =
        read_account_data s fa) := by
  refine ⟨?_, ?_, ?_, ?_⟩
  · intro rf rt s fa ta bf bt amount hne hf ht hge
    have hta : ta ≠ fa := Ne.symm hne
    cases rf with
    | true =>
      refine ⟨?_, fun _ => ?_, fun hcontra => by simp at hcontra, ?_⟩
      · simp [transfer, hne, transfer_locked, hf, ht, hge, snd_write]
      · simp only [transfer, hne, if_false, transfer_locked, hf, ht, hge, snd_write,
          Bool.and_false, Bool.false_eq_true, if_false, if_true, read_log,
          fst_write_false, read_write_self]
      · simp only [transfer, hne, if_false, transfer_locked, hf, ht, hge, snd_write,
          Bool.and_false, Bool.false_eq_true, if_false, if_true, read_log,
          fst_write_false]
        rw [read_write_other true _ fa ta bf hta,
          read_write_other true _ fa ta (bf - amount) hta]
        exact ht
    | false =>
      refine ⟨?_, fun hcontra => by simp at hcontra, fun _ => ?_, ?_⟩
      · simp [transfer, hne, transfer_locked, hf, ht, hge, snd_write]
      · simp only [transfer, hne, if_false, transfer_locked, hf, ht, hge, snd_write,
          Bool.and_false, Bool.false_eq_true, if_false, if_true, read_log,
          fst_write_false, read_write_self]
      · simp only [transfer, hne, if_false, transfer_locked, hf, ht, hge, snd_write,
          Bool.and_false, Bool.false_eq_true, if_false, if_true, read_log,
          fst_write_false]
        rw [read_write_other true _ fa ta (bf - amount) hta]
        exact ht
  · intro rf rt s fa ta bf bt amount hne hf ht hge
    cases rt with
    | true =>
      refine ⟨?_, fun _ => ?_, fun hcontra => by simp at hcontra, ?_⟩
      · simp [transfer, hne, transfer_locked, hf, ht, hge, snd_write]
      · simp only [transfer, hne, if_false, transfer_locked, hf, ht, hge, snd_write,
          Bool.false_and, Bool.false_eq_true, if_false, if_true, read_log,
          fst_write_false, read_write_self]
      · simp only [transfer, hne, if_false, transfer_locked, hf, ht, hge, snd_write,
          Bool.false_and, Bool.false_eq_true, if_false, if_true, read_log,
          fst_write_false]
        rw [read_write_other true _ ta fa bt hne,
          read_write_other true _ ta fa (bt + amount) hne]
        exact hf
    | false =>
      refine ⟨?_, fun hcontra => by simp at hcontra, fun _ => ?_, ?_⟩
      · simp [transfer, hne, transfer_locked, hf, ht, hge, snd_write]
      · simp only [transfer, hne, if_false, transfer_locked, hf, ht, hge, snd_write,
          Bool.false_and, Bool.false_eq_true, if_false, if_true, read_log,
          fst_write_false, read_write_self]
      · simp only [transfer, hne, if_false, transfer_locked, hf, ht, hge, snd_write,
          Bool.false_and, Bool.false_eq_true, if_false, if_true, read_log,
          fst_write_false]
        rw [read_write_other true _ ta fa (bt + amount) hne]
        exact hf
  · intro hashFn rf rt s fa ta adf adt bf bt amount pw hne hf hv ht hbf hbt hge
    have hta : ta ≠ fa := Ne.symm hne
    cases rf with
    | true =>
      refine ⟨?_, fun _ => ?_, fun hcontra => by simp at hcontra, ?_⟩
      · simp [c3_transfer, hne, hf, hv, ht, hbf, hbt, hge, snd3_write]
      · simp only [c3_transfer, hne, if_false, hf, hv, ht, hbf, hbt, hge, snd3_write,
          Bool.true_eq_false, Bool.and_false, Bool.false_eq_true, if_false, if_true,
          read3_log, fst3_write_false, read3_write_self]
        simp [Int.sub_add_cancel]
      · simp only [c3_transfer, hne, if_false, hf, hv, ht, hbf, hbt, hge, snd3_write,
          Bool.true_eq_false, Bool.and_false, Bool.false_eq_true, if_false, if_true,
          read3_log, fst3_write_false]
        rw [read3_write_other true _ fa ta _ hta, read3_write_other true _ fa ta _ hta]
        exact ht
    | false =>
      refine ⟨?_, fun hcontra => by simp at hcontra, fun _ => ?_, ?_⟩
      · simp [c3_transfer, hne, hf, hv, ht, hbf, hbt, hge, snd3_write]
      · simp only [c3_transfer, hne, if_false, hf, hv, ht, hbf, hbt, hge, snd3_write,
          Bool.true_eq_false, Bool.and_false, Bool.false_eq_true, if_false, if_true,
          read3_log, fst3_write_false, read3_write_self]
      · simp only [c3_transfer, hne, if_false, hf, hv, ht, hbf, hbt, hge, snd3_write,
          Bool.true_eq_false, Bool.and_false, Bool.false_eq_true, if_false, if_true,
          read3_log, fst3_write_false]
        rw [read3_write_other true _ fa ta _ hta]
        exact ht
  · intro hashFn rf rt s fa ta adf adt bf bt amount pw hne hf hv ht hbf hbt hge
    cases rt with
    | true =>
      refine ⟨?_, fun _ => ?_, fun hcontra => by simp at hcontra, ?_⟩
      · simp [c3_transfer, hne, hf, hv, ht, hbf, hbt, hge, snd3_write]
      · simp only [c3_transfer, hne, if_false, hf, hv, ht, hbf, hbt, hge, snd3_write,
          Bool.true_eq_false, Bool.false_and, Bool.false_eq_true, if_false, if_true,
          read3_log, fst3_write_false, read3_write_self]
        simp [Int.add_sub_cancel]
      · simp only [c3_transfer, hne, if_false, hf, hv, ht, hbf, hbt, hge, snd3_write,
          Bool.true_eq_false, Bool.false_and, Bool.false_eq_true, if_false, if_true,
          read3_log, fst3_write_false]
        rw [read3_write_other true _ ta fa _ hne, read3_write_other true _ ta fa _ hne]
        exact hf
    | false =>
      refine ⟨?_, fun hcontra => by simp at hcontra, fun _ => ?_, ?_⟩
      · simp [c3_transfer, hne, hf, hv, ht, hbf, hbt, hge, snd3_write]
      · simp only [c3_transfer, hne, if_false, hf, hv, ht, hbf, hbt, hge, snd3_write,
          Bool.true_eq_false, Bool.false_and, Bool.false_eq_true, if_false, if_true,
          read3_log, fst3_write_false, read3_write_self]
      · simp only [c3_transfer, hne, if_false, hf, hv, ht, hbf, hbt, hge, snd3_write,
          Bool.true_eq_false, Bool.false_and, Bool.false_eq_true, if_false, if_true,
          read3_log, fst3_write_false]
        rw [read3_write_other true _ ta fa _ hne]
        exact hf

/-- C6 counterexample: on concrete two-account states, a transfer with
one failed forward write reports exactly the same outcome and writes
exactly the same audit lines whether its compensating write succeeds or
also fails — in both orientations of the partial failure, and in the
`c3.py` variant as well; there is no distinct louder failure such as a
PartialFailureUnrecovered, only the one ordinary rolled-back outcome. -/
theorem claim6_counterexample :
    (transfer true false false true st1 accA accB 300).2 =
      (transfer true false true true st1 accA accB 300).2 ∧
    (transfer true false false true st1 accA accB 300).2 = TransferRes.rolledBack ∧
    (transfer true false false true st1 accA accB 300).1.log =
      (transfer true false true true st1 accA accB 300).1.log ∧
    (transfer false true true false st1 accA accB 300).2 =
      (transfer false true true true st1 accA accB 300).2 ∧
    (transfer false true true false st1 accA accB 300).2 = TransferRes.rolledBack ∧
    (transfer false true true false st1 accA accB 300).1.log =
      (transfer false true true true st1 accA accB 300).1.log ∧
    (c3_transfer catHash true false false true st3 accA accB 30 pw0).2 =
      (c3_transfer catHash true false true true st3 accA accB 30 pw0).2 ∧
    (c3_transfer catHash true false false true st3 accA accB 30 pw0).2 =
      TransferRes3.rolledBack ∧
    (c3_transfer catHash true false false true st3 accA accB 30 pw0).1.log =
      (c3_transfer catHash true false true true st3 accA accB 30 pw0).1.log :=
  ⟨by decide, by decide, by decide, by decide, by decide, by decide, by decide,
   by decide, by decide⟩

/-- C6 witness: concrete partial failures in both orientations — the
sender left at 700 when its restore also fails, the receiver left at 1300
when its restore also fails, and the `c3` sender restored to 1000 when
its restore succeeds — all reporting the ordinary rolled-back outcome. -/
theorem claim6_witness :
    (transfer true false false true st1 accA accB 300).2 = TransferRes.rolledBack ∧
    read_balance (transfer true false false true st1 accA accB 300).1 accA = some 700 ∧
    (transfer false true true false st1 accA accB 300).2 = TransferRes.rolledBack ∧
    read_balance (transfer false true true false st1 accA accB 300).1 accB = some 1300 ∧
    (c3_transfer catHash true false true true st3 accA accB 30 pw0).2 =
      TransferRes3.rolledBack ∧
    read_account_data (c3_transfer catHash true false true true st3 accA accB 30 pw0).1 accA =
      some { rec3A with balance := some 1000 } := by
  refine ⟨?_, ?_, ?_, ?_, ?_, ?_⟩
  · exact (claim6_rollback.1 false true st1 accA accB 1000 1000 300 (by decide)
      (by decide) (by decide) (by decide)).1
  · have h := (claim6_rollback.1 false true st1 accA accB 1000 1000 300 (by decide)
      (by decide) (by decide) (by decide)).2.2.1 rfl
    simpa using h
  · exact (claim6_rollback.2.1 true false st1 accA accB 1000 1000 300 (by decide)
      (by decide) (by decide) (by decide)).1
  · have h := (claim6_rollback.2.1 true false st1 accA accB 1000 1000 300 (by decide)
      (by decide) (by decide) (by decide)).2.2.1 rfl
    simpa using h
  · exact (claim6_rollback.2.2.1 catHash true true st3 accA accB rec3A rec3B 1000 50 30
      pw0 (by decide) (by decide) (by decide) (by decide) (by decide) (by decide)
      (by decide)).1
  · exact (claim6_rollback.2.2.1 catHash true true st3 accA accB rec3A rec3B 1000 50 30
      pw0 (by decide) (by decide) (by decide) (by decide) (by decide) (by decide)
      (by decide)).2.1 rfl

/-- C7 (amended): a same-account transfer fails with the same-account
outcome before reading or writing any record in every variant; the base
variant `BS.py` appends exactly one failed audit line attributed to the
sender, while `c2.py` (like `c3.py`) reports the failure only through its
callback and appends no audit line. -/
theorem claim7_same_account (wf wt rf rt : Bool) (s : BankState) (a : String)
    (m : Int) :
    (transfer wf wt rf rt s a a m).2 = TransferRes.sameAccount ∧
    (transfer wf wt rf rt s a a m).1.store = s.store ∧
    (transfer wf wt rf rt s a a m).1.log =
      { op := opTransfer, user := a, details := selfDetails m,
        status := sFailed } :: s.log ∧
    c2_transfer wf wt rf rt s a a m = (s, TransferRes.sameAccount) := by
  refine ⟨?_, ?_, ?_, ?_⟩ <;> simp [transfer, c2_transfer, log_transaction_atomic]

/-- C7 counterexample: in the cited `c2.py` variant, the same-account
transfer appends no audit entry at all, against the claimed exactly-one
failed entry attributed to the sender. -/
theorem claim7_counterexample :
    (c2_transfer true true true true st1 accA accA 100).1.log = st1.log ∧
    (c2_transfer true true true true st1 accA accA 100).2 = TransferRes.sameAccount :=
  ⟨by decide, by decide⟩

/-- C8 (amended): a record that exists but fails to parse reads exactly
like a missing record (`None`), so deposit, withdraw and transfer against
that account all fail with the no-such-account outcome without touching
the store — but `create_account` probes raw file existence, so create on
an account whose record exists yet is unparseable does NOT succeed: it
fails with the already-exists outcome, leaving the unreadable record in
place. -/
theorem claim8_corrupt_blocks (s : BankState) (id : String)
    (h : s.store id = FileState.corrupt) :
    read_balance s id = none ∧
    (∀ (w : Bool) (amount : Int),
      (deposit w s id amount).2 = DepositRes.noAccount ∧
      (deposit w s id amount).1.store = s.store) ∧
    (∀ (w : Bool) (amount : Int),
      (withdraw w s id amount).2 = WithdrawRes.noAccount ∧
      (withdraw w s id amount).1.store = s.store) ∧
    (∀ (wf wt rf rt : Bool) (ta : String) (amount : Int), id ≠ ta →
      (transfer wf wt rf rt s id ta amount).2 = TransferRes.noAccount ∧
      (transfer wf wt rf rt s id ta amount).1.store = s.store) ∧
    (∀ (w : Bool) (b0 : Int), create_account w s id b0 = (s, CreateRes.alreadyExists)) := by
  have hr : read_balance s id = none := by simp [read_balance, h]
  refine ⟨hr, ?_, ?_, ?_, ?_⟩
  · intro w amount
    simp [deposit, hr, log_transaction_atomic]
  · intro w amount
    simp [withdraw, hr, log_transaction_atomic]
  · intro wf wt rf rt ta amount hne
    simp [transfer, hne, transfer_locked, hr, log_transaction_atomic]
  · intro w b0
    simp [create_account, h]

/-- C8 counterexample: creating account A while its record exists but is
unparseable fails with the already-exists outcome and persists nothing —
the claim that create succeeds on an unparseable record is false. -/
theorem claim8_counterexample :
    (create_account true stC accA 5).2 = CreateRes.alreadyExists ∧
    read_balance (create_account true stC accA 5).1 accA = none :=
  ⟨by decide, by decide⟩

/-- C8 witness: on the concrete corrupt-record state, A reads as missing
and a deposit against it is rejected. -/
theorem claim8_witness :
    read_balance stC accA = none ∧
    (deposit true stC accA 7).2 = DepositRes.noAccount :=
  ⟨(claim8_corrupt_blocks stC accA rfl).1,
   ((claim8_corrupt_blocks stC accA rfl).2.1 true 7).1⟩

/-- C9: creating an account whose record already exists with balance `b`
fails with the already-exists outcome, mutates nothing (not even the
log), and the persisted balance stays `b` whatever initial balance the
second create requested. -/
theorem claim9_create_existing (wok : Bool) (s : BankState) (id : String)
    (b bq : Int) (h : read_balance s id = some b) :
    create_account wok s id bq = (s, CreateRes.alreadyExists) ∧
    read_balance (create_account wok s id bq).1 id = some b := by
  have hstore : ∃ c, s.store id = FileState.content c := by
    cases hs : s.store id with
    | missing => simp [read_balance, hs] at h
    | content c => exact ⟨c, rfl⟩
    | corrupt => simp [read_balance, hs] at h
  obtain ⟨c, hc⟩ := hstore
  have h1 : create_account wok s id bq = (s, CreateRes.alreadyExists) := by
    simp [create_account, hc]
  exact ⟨h1, by rw [h1] ; exact h⟩

/-- C9 witness: `create(A, 1000)` then `create(A, 500)` — the second
create fails with the already-exists outcome and A's balance remains
1000 (the spec's example). -/
theorem claim9_witness :
    create_account true st1 accA 500 = (st1, CreateRes.alreadyExists) ∧
    read_balance (create_account true st1 accA 500).1 accA = some 1000 :=
  claim9_create_existing true st1 accA 1000 500 (by decide)

/-- C10: the engine itself performs no sign check on amounts: a deposit
of any integer amount — negative included — into a readable account with
a succeeding write reports success and persists `b + amount`, and a
create of any integer initial balance — negative included — persists it
verbatim; the non-negativity invariant rests entirely on caller-side
validation. -/
theorem claim10_no_sign_check :
    (∀ (s : BankState) (id : String) (b amount : Int),
      read_balance s id = some b →
      (deposit true s id amount).2 = DepositRes.deposited ∧
      read_balance (deposit true s id amount).1 id = some (b + amount)) ∧
    (∀ (s : BankState) (id : String) (b0 : Int),
      s.store id = FileState.missing →
      (create_account true s id b0).2 = CreateRes.created ∧
      read_balance (create_account true s id b0).1 id = some b0) := by
  constructor
  · intro s id b amount h
    constructor
    · simp [deposit, h, snd_write]
    · simp [deposit, h, snd_write, read_log, read_write_self]
  · intro s id b0 h
    constructor
    · simp [create_account, h, snd_write]
    · simp [create_account, h, snd_write, read_log, read_write_self]

/-- C10 witness: depositing −1500 into balance-1000 account A succeeds
and persists −500, and creating account B with initial balance −7
persists −7 — concrete negative balances reachable through the engine. -/
theorem claim10_witness :
    (deposit true st1 accA (-1500)).2 = DepositRes.deposited ∧
    read_balance (deposit true st1 accA (-1500)).1 accA = some (-500) ∧
    (create_account true stEmpty accB (-7)).2 = CreateRes.created ∧
    read_balance (create_account true stEmpty accB (-7)).1 accB = some (-7) := by
  refine ⟨?_, ?_, ?_, ?_⟩
  · exact (claim10_no_sign_check.1 st1 accA 1000 (-1500) (by decide)).1
  · have h := (claim10_no_sign_check.1 st1 accA 1000 (-1500) (by decide)).2
    simpa using h
  · exact (claim10_no_sign_check.2 stEmpty accB (-7) rfl).1
  · exact (claim10_no_sign_check.2 stEmpty accB (-7) rfl).2
